import Mathlib

/-!
# Business location extractor: the map client script

A shallow embedding of `static/js/script.js`: the closure variables of the
`DOMContentLoaded` handler, the parts of the page and of the Leaflet map that the
script reads or writes, and every event handler of the script as a function on that
state.  The state only records what the script itself sets: the viewport
(`setView`, `fitBounds`) and the tile layer are left out.

Asynchronous work is split at the points where the script yields: the function that
starts a `fetch` appends the request to the log `State.requests`, and the `then` /
`catch` callbacks are separate events that carry the outcome of the request.
-/

namespace BusinessLocationExtractor

/-! ## Data -/

/-- A JavaScript number held by a coordinate.  The script copies these values and
never computes with them. -/
abbrev JSNumber := Int

/-- A Leaflet `LatLng`. -/
structure LatLng where
  lat : JSNumber
  lng : JSNumber
deriving DecidableEq, Repr

/-- An object literal whose properties are numbers, as a list of own properties in
insertion order. -/
abbrev JSObject := List (String × JSNumber)

/-- Property read on an object literal: `none` stands for `undefined`. -/
def JSObject.get (o : JSObject) (key : String) : Option JSNumber :=
  (o.find? (fun p => p.1 == key)).map Prod.snd

/-- The layers of Leaflet that a draw event can carry.  `L.Rectangle` is a subclass
of `L.Polygon`; for both, `getLatLngs()` is the array of rings and its element `0`
is the outer ring.  The draw control of the script only enables polygons and
rectangles, and it draws polygons of one part. -/
inductive Layer
  | polygon (outer : List LatLng) (holes : List (List LatLng))
  | rectangle (outer : List LatLng)
  | polyline (points : List LatLng)
  | circle (center : LatLng) (radius : JSNumber)
  | marker (position : LatLng)
deriving DecidableEq, Repr

/-- The boundary of an area as the backend returns it (GeoJSON, never inspected by
the script). -/
structure Boundary where
  geojson : String
deriving DecidableEq, Repr

/-- The `center` of an area response. -/
structure Center where
  lat : JSNumber
  lon : JSNumber
deriving DecidableEq, Repr

/-- A successful `/search_area` response body. -/
structure AreaData where
  name : String
  center : Center
  boundary : Boundary
deriving DecidableEq, Repr

/-- The optional tags of a search result that the popup shows. -/
structure Tags where
  phone : Option String
  website : Option String
  opening_hours : Option String
  addr_street : Option String
deriving DecidableEq, Repr

/-- One element of `data.results`, with the fields of the wire contract: a name and two
numbers, and optional tags. -/
structure SearchResult where
  name : String
  lat : JSNumber
  lon : JSNumber
  tags : Option Tags
deriving DecidableEq, Repr

/-- A response body `{error: ...}` whose `error` passes the test `if (data.error)`,
that is, a non-empty string. -/
structure ErrorBody where
  error : String
  truthy : error ≠ ""

/-- How a `/search` request settles: the promise chain rejects (`catch`), or the body
reports an error, or it carries results. -/
inductive SearchResponse
  | failure
  | error (body : ErrorBody)
  | results (results : List SearchResult)

/-- How a `/search_area` request settles. -/
inductive AreaResponse
  | failure
  | error (body : ErrorBody)
  | found (data : AreaData)

/-- The body of a `/search` request: `requestData`.  A property that was never
assigned is `none` and is absent from the JSON text. -/
structure SearchRequest where
  category : String
  value : String
  useDrawnShape : Bool
  coordinates : Option (List JSObject)
  boundary : Option Boundary
deriving DecidableEq, Repr

/-- The body of a `/search_area` request. -/
inductive AreaRequest
  | byName (areaName : String)
  | byPoint (lat lon : JSNumber)
deriving DecidableEq, Repr

/-- A call of `fetch`. -/
inductive Request
  | search (body : SearchRequest)
  | searchArea (body : AreaRequest)
  | export (results : List SearchResult)
deriving DecidableEq, Repr

/-- The notification element while it is displayed: its text and the `type` that
completes its class name. -/
structure Notification where
  message : String
  type : String
deriving DecidableEq, Repr

/-- A marker that `L.marker([lat, lon]).addTo(map)` put on the map, with the content
of its popup. -/
structure Marker where
  lat : JSNumber
  lon : JSNumber
  popupContent : String
deriving DecidableEq, Repr

/-- A child of the `results-list` element: the paragraph of the empty answer, or the
`result-item` built for a result. -/
inductive ResultNode
  | noResults
  | item (result : SearchResult)
deriving DecidableEq, Repr

/-- A layer made by `L.geoJSON`.  `id` is the identity of the object: two layers made
from the same boundary are different layers. -/
structure GeoLayer where
  id : Nat
  boundary : Boundary
deriving DecidableEq, Repr

/-- The popup that `displayAreaBoundary` opens.  `listener` tells whether the click
listener of its button has been attached by the timer callback. -/
structure AreaPopup where
  name : String
  center : Center
  listener : Bool
deriving DecidableEq, Repr

/-- What the page holds before the script runs; the markup is not part of the
script. -/
structure Page where
  areaInput : String
  resultsList : List ResultNode
  exportVisible : Bool
  spinnerVisible : Bool
  notification : Option Notification

/-- The closure variables of the script, `window.boundaryLayer`, and the parts of the
map and of the page that the script writes. -/
structure State where
  /-- Closure variable `currentDrawing`. -/
  currentDrawing : Option Layer
  /-- Closure variable `useDrawnShape`. -/
  useDrawnShape : Bool
  /-- Closure variable `currentAreaBoundary`. -/
  currentAreaBoundary : Option Boundary
  /-- The layers of the feature group `drawnItems`, which is on the map. -/
  drawnItems : List Layer
  /-- The global `window.boundaryLayer`. -/
  boundaryLayer : Option GeoLayer
  /-- The GeoJSON layers that are on the map. -/
  mapBoundaryLayers : List GeoLayer
  /-- The result markers that are on the map. -/
  markers : List Marker
  /-- The popup of an area, while it is open. -/
  areaPopup : Option AreaPopup
  /-- Identity of the next layer object. -/
  nextId : Nat
  /-- Attribute `disabled` of `search-btn`. -/
  searchDisabled : Bool
  /-- Whether `export-btn` is displayed. -/
  exportVisible : Bool
  /-- The results captured by the `onclick` of `export-btn`. -/
  exportOnclick : Option (List SearchResult)
  /-- Children of `results-list`. -/
  resultsList : List ResultNode
  /-- Whether `loading-spinner` is displayed. -/
  spinnerVisible : Bool
  /-- The notification, while displayed. -/
  notification : Option Notification
  /-- Value of `area-input`. -/
  areaInput : String
  /-- Every `fetch` issued so far, oldest first. -/
  requests : List Request
  /-- File names offered for download so far. -/
  downloads : List String

/-- State when the `DOMContentLoaded` handler returns: the three variables are
`null`, `false`, `null`, nothing is on the map, and the last statement disables the
search button. -/
def initialState (page : Page) : State :=
  { currentDrawing := none
    useDrawnShape := false
    currentAreaBoundary := none
    drawnItems := []
    boundaryLayer := none
    mapBoundaryLayers := []
    markers := []
    areaPopup := none
    nextId := 0
    searchDisabled := true
    exportVisible := page.exportVisible
    exportOnclick := none
    resultsList := page.resultsList
    spinnerVisible := page.spinnerVisible
    notification := page.notification
    areaInput := page.areaInput
    requests := []
    downloads := [] }

/-- A page with an empty area input, no results, and the export button, the spinner
and the notification hidden. -/
def Page.blank : Page :=
  { areaInput := ""
    resultsList := []
    exportVisible := false
    spinnerVisible := false
    notification := none }

/-! ## Helpers of the script and of the libraries -/

/-- JavaScript truthiness of a property that is a string or `undefined`. -/
def truthy : Option String → Bool
  | none => false
  | some s => s != ""

/-- White space and line terminators of ECMAScript, the characters that
`String.prototype.trim` strips. -/
def isJSWhiteSpace (c : Char) : Bool :=
  let n := c.toNat
  n == 0x09 || n == 0x0A || n == 0x0B || n == 0x0C || n == 0x0D || n == 0x20 ||
  n == 0xA0 || n == 0x1680 || (0x2000 ≤ n && n ≤ 0x200A) || n == 0x2028 ||
  n == 0x2029 || n == 0x202F || n == 0x205F || n == 0x3000 || n == 0xFEFF

/-- The method `trim` of a string. -/
def jsTrim (s : String) : String :=
  String.mk ((s.data.dropWhile isJSWhiteSpace).reverse.dropWhile isJSWhiteSpace).reverse

/-- The call `map.removeLayer(layer)` on the GeoJSON layers of the map. -/
def removeLayer (layer : GeoLayer) (onMap : List GeoLayer) : List GeoLayer :=
  onMap.filter (fun l => l.id != layer.id)

/-- The statement `if (window.boundaryLayer) map.removeLayer(window.boundaryLayer)`. -/
def removeBoundaryLayerIfAny (s : State) : State :=
  match s.boundaryLayer with
  | some layer => { s with mapBoundaryLayers := removeLayer layer s.mapBoundaryLayers }
  | none => s

/-- The function `showNotification(message, type)`. -/
def showNotification (message : String) (type : String) (s : State) : State :=
  { s with notification := some { message := message, type := type } }

/-- A call `fetch(...)`: the request is issued. -/
def fetch (r : Request) (s : State) : State :=
  { s with requests := s.requests ++ [r] }

/-! ## The functions of the script -/

/-- The function `getCoordinatesFromDrawing(layer)`: for a polygon or a rectangle,
the `forEach` over the outer ring pushes one object `{lat, lng}` per vertex. -/
def getCoordinatesFromDrawing (layer : Layer) : List JSObject :=
  match layer with
  | .polygon outer _ =>
      outer.foldl (fun coordinates latLng =>
        coordinates ++ [[("lat", latLng.lat), ("lng", latLng.lng)]]) []
  | .rectangle outer =>
      outer.foldl (fun coordinates latLng =>
        coordinates ++ [[("lat", latLng.lat), ("lng", latLng.lng)]]) []
  | _ => []

/-- The handler of `L.Draw.Event.CREATED`. -/
def onDrawCreated (layer : Layer) (s : State) : State :=
  let s := { s with drawnItems := [] }
  let s := { s with drawnItems := s.drawnItems ++ [layer] }
  let s := { s with currentDrawing := some layer, useDrawnShape := true }
  let s := { s with searchDisabled := false }
  showNotification "Custom area selected. Ready to search for businesses." "info" s

/-- The function `searchBusinesses()`, up to the point where it returns; `category`
and `value` are the values read from the two select elements. -/
def searchBusinesses (category value : String) (s : State) : State :=
  let s := { s with spinnerVisible := true, resultsList := [] }
  let requestData : SearchRequest :=
    { category := category, value := value, useDrawnShape := s.useDrawnShape,
      coordinates := none, boundary := none }
  match s.useDrawnShape, s.currentDrawing, s.currentAreaBoundary with
  | true, some layer, _ =>
      fetch (.search { requestData with
        coordinates := some (getCoordinatesFromDrawing layer) }) s
  | _, _, some boundary =>
      fetch (.search { requestData with boundary := some boundary }) s
  | _, _, none =>
      let s := showNotification
        "Please select an area first by searching or drawing on the map." "error" s
      { s with spinnerVisible := false }

/-- The content of the popup of a result marker. -/
def popupContent (result : SearchResult) : String :=
  let c := "<strong>" ++ result.name ++ "</strong><br>"
  match result.tags with
  | none => c
  | some tags =>
      let c := if truthy tags.phone then c ++ "Phone: " ++ tags.phone.getD "" ++ "<br>" else c
      let c := if truthy tags.website then
        c ++ "Website: <a href=\"" ++ tags.website.getD "" ++ "\" target=\"_blank\">Link</a><br>"
        else c
      let c := if truthy tags.opening_hours then
        c ++ "Hours: " ++ tags.opening_hours.getD "" ++ "<br>" else c
      if truthy tags.addr_street then c ++ "Address: " ++ tags.addr_street.getD "" else c

/-- One turn of the `forEach` over the results: a marker is added to the map and a
`result-item` is appended to the list. -/
def renderResult (s : State) (result : SearchResult) : State :=
  { s with
    markers := s.markers ++
      [{ lat := result.lat, lon := result.lon, popupContent := popupContent result }]
    resultsList := s.resultsList ++ [.item result] }

/-- The `catch` callback of `searchBusinesses`. -/
def onSearchFailure (s : State) : State :=
  let s := { s with spinnerVisible := false }
  showNotification "Error connecting to server. Please try again." "error" s

/-- The `then` and `catch` callbacks of the `fetch` of `searchBusinesses`. -/
def onSearchResponse (response : SearchResponse) (s : State) : State :=
  match response with
  | .failure => onSearchFailure s
  | .error body =>
      let s := { s with spinnerVisible := false }
      showNotification body.error "error" s
  | .results [] =>
      let s := { s with spinnerVisible := false }
      { s with resultsList := [.noResults] }
  | .results (r :: rs) =>
      let results := r :: rs
      let s := { s with spinnerVisible := false }
      let s := results.foldl renderResult s
      let s := { s with exportVisible := true, exportOnclick := some results }
      showNotification
        ("Found " ++ toString results.length ++ " businesses matching your criteria.") "info" s

/-- The function `exportResults(results)`, up to its `fetch`. -/
def exportResults (results : List SearchResult) (s : State) : State :=
  fetch (.export results) s

/-- The callbacks of the `fetch` of `exportResults`: `ok` is `response.ok` of a
response that arrived, and a rejected promise counts as not `ok`. -/
def onExportResponse (ok : Bool) (s : State) : State :=
  if ok then { s with downloads := s.downloads ++ ["business_data.csv"] }
  else showNotification "Error exporting data. Please try again." "error" s

/-- The function `searchArea()`, up to the point where it returns. -/
def searchArea (s : State) : State :=
  let areaName := jsTrim s.areaInput
  if areaName = "" then
    showNotification "Please enter an area name to search." "error" s
  else
    let s := { s with spinnerVisible := true }
    let s := removeBoundaryLayerIfAny s
    fetch (.searchArea (.byName areaName)) s

/-- The function `identifyLocationByClick(lat, lng)`, up to the point where it
returns. -/
def identifyLocationByClick (lat lng : JSNumber) (s : State) : State :=
  let s := { s with spinnerVisible := true }
  let s := removeBoundaryLayerIfAny s
  fetch (.searchArea (.byPoint lat lng)) s

/-- The function `displayAreaBoundary(data, originalSearchTerm)`; `none` stands for
the argument `null`. -/
def displayAreaBoundary (data : AreaData) (originalSearchTerm : Option String)
    (s : State) : State :=
  let s := { s with currentAreaBoundary := some data.boundary, useDrawnShape := false }
  let s := { s with drawnItems := [], currentDrawing := none }
  let s := removeBoundaryLayerIfAny s
  let layer : GeoLayer := { id := s.nextId, boundary := data.boundary }
  let s := { s with
    boundaryLayer := some layer
    mapBoundaryLayers := s.mapBoundaryLayers ++ [layer]
    nextId := s.nextId + 1 }
  let s := { s with
    areaPopup := some { name := data.name, center := data.center, listener := false } }
  let s := match originalSearchTerm with
    | some term => { s with areaInput := term }
    | none => s
  let s := { s with searchDisabled := false }
  showNotification ("Found area: " ++ data.name) "info" s

/-- The callbacks of the `fetch` of `searchArea` and of `identifyLocationByClick`.
`originalSearchTerm` is the term captured by `searchArea`, and `none` for a lookup by
point. -/
def onAreaResponse (originalSearchTerm : Option String) (response : AreaResponse)
    (s : State) : State :=
  match response with
  | .failure =>
      let s := { s with spinnerVisible := false }
      showNotification "Error connecting to server. Please try again." "error" s
  | .error body =>
      let s := { s with spinnerVisible := false }
      showNotification body.error "error" s
  | .found data =>
      let s := { s with spinnerVisible := false }
      displayAreaBoundary data originalSearchTerm s

/-- The timer callback of `displayAreaBoundary`: when the button of the popup is in
the document, the click listener is attached to it. -/
def onPopupTimer (s : State) : State :=
  match s.areaPopup with
  | some popup => { s with areaPopup := some { popup with listener := true } }
  | none => s

/-- The click listener of the button `search-here-btn` of the popup. -/
def onSearchHereClick (s : State) : State :=
  let s := { s with areaPopup := none }
  let s := { s with searchDisabled := false }
  showNotification "Area selected. Ready to search for businesses." "info" s

/-- The function `clearDrawings()`. -/
def clearDrawings (s : State) : State :=
  let s := { s with drawnItems := [] }
  let s := if s.useDrawnShape then { s with searchDisabled := true } else s
  let s := { s with currentDrawing := none }
  let s := match s.boundaryLayer with
    | some layer =>
        { s with
          mapBoundaryLayers := removeLayer layer s.mapBoundaryLayers
          boundaryLayer := none
          currentAreaBoundary := none
          searchDisabled := true }
    | none => s
  let s := { s with resultsList := [] }
  let s := { s with exportVisible := false }
  showNotification "Map cleared. Select a new area to search." "info" s

/-! ## Events -/

/-- What can happen to the page once the script is loaded. -/
inductive Event
  /-- The draw control fires `L.Draw.Event.CREATED`. -/
  | shapeCreated (layer : Layer)
  /-- A click on `search-btn`, with the values of the two select elements. -/
  | searchClick (category value : String)
  /-- A `/search` request settles. -/
  | searchResponse (response : SearchResponse)
  /-- A click on `export-btn`. -/
  | exportClick
  /-- An `/export` request settles. -/
  | exportResponse (ok : Bool)
  /-- The user edits `area-input`. -/
  | areaInputEdited (text : String)
  /-- A click on `area-search-btn`, or the Enter key in `area-input`. -/
  | areaSearchClick
  /-- A click on the map, as far as the script handles it.  When Leaflet closes an open
  popup on that click, this is the event `popupClosed`. -/
  | mapClick (lat lng : JSNumber)
  /-- A `/search_area` request settles. -/
  | areaResponse (originalSearchTerm : Option String) (response : AreaResponse)
  /-- The timer set by `displayAreaBoundary` fires. -/
  | popupTimer
  /-- A click on the button of the area popup. -/
  | searchHereClick
  /-- The area popup is closed by the user or by the map. -/
  | popupClosed
  /-- A click on `clear-btn`. -/
  | clearClick
  /-- A timer set by `showNotification` fires. -/
  | notificationTimer

/-- The effect of one event.  A disabled button, a hidden button and a button without
listener do not run a handler. -/
def step (e : Event) (s : State) : State :=
  match e with
  | .shapeCreated layer => onDrawCreated layer s
  | .searchClick category value =>
      if s.searchDisabled then s else searchBusinesses category value s
  | .searchResponse response => onSearchResponse response s
  | .exportClick =>
      if s.exportVisible then
        match s.exportOnclick with
        | some results => exportResults results s
        | none => s
      else s
  | .exportResponse ok => onExportResponse ok s
  | .areaInputEdited text => { s with areaInput := text }
  | .areaSearchClick => searchArea s
  | .mapClick lat lng => identifyLocationByClick lat lng s
  | .areaResponse term response => onAreaResponse term response s
  | .popupTimer => onPopupTimer s
  | .searchHereClick =>
      match s.areaPopup with
      | some popup => if popup.listener then onSearchHereClick s else s
      | none => s
  | .popupClosed => { s with areaPopup := none }
  | .clearClick => clearDrawings s
  | .notificationTimer => { s with notification := none }

/-- The state after a sequence of events, oldest first. -/
def run (events : List Event) (s : State) : State :=
  events.foldl (fun s e => step e s) s

/-- Whether the event is a click on the button of the area popup. -/
def Event.isSearchHereClick : Event → Bool
  | .searchHereClick => true
  | _ => false

/-! ## Observations -/

/-- The drawn overlay is displayed: the feature group holds a layer. -/
def drawnOverlayDisplayed (s : State) : Bool := !s.drawnItems.isEmpty

/-- A boundary overlay is displayed: a GeoJSON layer is on the map. -/
def boundaryOverlayDisplayed (s : State) : Bool := !s.mapBoundaryLayers.isEmpty

/-- An area selection is held: a drawn shape that is in use, or a boundary.  These
are the two cases in which `searchBusinesses` builds a request. -/
def selectionHeld (s : State) : Bool :=
  (s.useDrawnShape && s.currentDrawing.isSome) || s.currentAreaBoundary.isSome

/-- The property `coordinates` is present in the body. -/
def SearchRequest.hasCoordinates (r : SearchRequest) : Bool := r.coordinates.isSome

/-- The property `boundary` is present in the body. -/
def SearchRequest.hasBoundary (r : SearchRequest) : Bool := r.boundary.isSome

/-- Relation between a state `s` and a later state `t`: no boundary overlay is on the
map in `t`, and `t` holds the boundary and the layer handle of `s`. -/
def overlayGoneBoundaryKept (s t : State) : Prop :=
  boundaryOverlayDisplayed t = false ∧ t.currentAreaBoundary = s.currentAreaBoundary ∧
    t.boundaryLayer = s.boundaryLayer

instance (s t : State) : Decidable (overlayGoneBoundaryKept s t) := by
  unfold overlayGoneBoundaryKept
  infer_instance

/-- The vertex record `{lat, lon}` of the `/search` wire contract, as the specification
words it. -/
def wireVertex (v : LatLng) : JSObject := [("lat", v.lat), ("lon", v.lng)]

/-! ## Invariants -/

/-- The body has exactly one of `coordinates` and `boundary`, and it has `coordinates`
exactly when its `useDrawnShape` is true. -/
def SearchRequest.wellFormed (r : SearchRequest) : Bool :=
  (r.hasCoordinates != r.hasBoundary) && (r.hasCoordinates == r.useDrawnShape)

/-- The check `SearchRequest.wellFormed` on the requests that go to `/search`. -/
def Request.wellFormed : Request → Bool
  | .search r => r.wellFormed
  | _ => true

/-- Facts that hold in every state the script can reach. -/
structure Inv (s : State) : Prop where
  boundary_has_layer : s.currentAreaBoundary.isSome = true → s.boundaryLayer.isSome = true
  on_map_is_handle : ∀ l ∈ s.mapBoundaryLayers, s.boundaryLayer = some l
  drawing_in_use : s.currentDrawing.isSome = true → s.useDrawnShape = true
  stale_flag : s.useDrawnShape = true → s.currentDrawing = none → s.currentAreaBoundary = none
  held_enabled : selectionHeld s = true → s.searchDisabled = false
  requests_ok : ∀ r ∈ s.requests, r.wellFormed = true

/-- The search button is enabled only while a selection is held.  This holds as long
as the button of the area popup is not clicked. -/
def EnabledOnlyIfHeld (s : State) : Prop :=
  s.searchDisabled = false → selectionHeld s = true

/-! ## Sample data -/

/-- A sample area response. -/
def berlin : AreaData :=
  { name := "Berlin, Deutschland", center := ⟨52, 13⟩, boundary := ⟨"berlin"⟩ }

/-- A sample drawn polygon. -/
def triangle : Layer := .polygon [⟨0, 0⟩, ⟨0, 1⟩, ⟨1, 0⟩] []

/-- A sample search result. -/
def cafe : SearchResult := { name := "Cafe", lat := 1, lon := 2, tags := none }

/-- Another sample search result. -/
def bakery : SearchResult := { name := "Bakery", lat := 3, lon := 4, tags := none }

/-- A sample error body. -/
def timeout : ErrorBody := { error := "Overpass timeout", truthy := by decide }

/-! ## Lemmas -/

theorem foldl_renderResult (rs : List SearchResult) (s : State) :
    rs.foldl renderResult s =
      { s with
        markers := s.markers ++ rs.map (fun r =>
          { lat := r.lat, lon := r.lon, popupContent := popupContent r })
        resultsList := s.resultsList ++ rs.map ResultNode.item } := by
  induction rs generalizing s with
  | nil => simp
  | cons r rs ih => simp [List.foldl_cons, ih, renderResult]

theorem inv_initialState (page : Page) : Inv (initialState page) := by
  constructor <;> simp [initialState, selectionHeld]

theorem removeLayer_handle (l : GeoLayer) (onMap : List GeoLayer)
    (h : ∀ x ∈ onMap, some l = some x) : removeLayer l onMap = [] := by
  simp only [removeLayer, List.filter_eq_nil_iff]
  intro x hx
  have := h x hx
  simp at this
  simp [this]

theorem inv_searchBusinesses (c v : String) (s : State) (h : Inv s) :
    Inv (searchBusinesses c v s) := by
  obtain ⟨h1, h3, h4, h5, h6, hP⟩ := h
  unfold searchBusinesses
  cases hu : s.useDrawnShape <;> cases hd : s.currentDrawing <;>
    cases hb : s.currentAreaBoundary <;>
    constructor <;>
    simp_all [fetch, showNotification, selectionHeld, Request.wellFormed,
      SearchRequest.wellFormed, SearchRequest.hasCoordinates, SearchRequest.hasBoundary] <;>
    first
      | assumption
      | (intro r hr
         rcases hr with hr | rfl
         · exact hP r hr
         · simp)

theorem wellFormed_append (rs : List Request) (r : Request)
    (h : ∀ x ∈ rs, x.wellFormed = true) (hr : r.wellFormed = true) :
    ∀ x ∈ rs ++ [r], x.wellFormed = true := by
  intro x hx
  rcases List.mem_append.mp hx with hx | hx
  · exact h x hx
  · simp at hx
    simpa [hx] using hr

/-- The invariant only reads seven components of the state. -/
theorem inv_frame {s t : State} (h : Inv s)
    (e1 : t.currentAreaBoundary = s.currentAreaBoundary)
    (e2 : t.boundaryLayer = s.boundaryLayer)
    (e3 : t.mapBoundaryLayers = s.mapBoundaryLayers)
    (e4 : t.currentDrawing = s.currentDrawing)
    (e5 : t.useDrawnShape = s.useDrawnShape)
    (e6 : t.searchDisabled = s.searchDisabled)
    (e7 : t.requests = s.requests) : Inv t := by
  obtain ⟨h1, h3, h4, h5, h6, hP⟩ := h
  constructor
  · rw [e1, e2]; exact h1
  · rw [e2, e3]; exact h3
  · rw [e4, e5]; exact h4
  · rw [e1, e4, e5]; exact h5
  · simp only [selectionHeld, e1, e4, e5, e6] at h6 ⊢; exact h6
  · rw [e7]; exact hP

theorem inv_onSearchResponse (r : SearchResponse) (s : State) (h : Inv s) :
    Inv (onSearchResponse r s) := by
  cases r with
  | failure => exact inv_frame h rfl rfl rfl rfl rfl rfl rfl
  | error body => exact inv_frame h rfl rfl rfl rfl rfl rfl rfl
  | results rs =>
    cases rs with
    | nil => exact inv_frame h rfl rfl rfl rfl rfl rfl rfl
    | cons r rs =>
      apply inv_frame h <;> simp [onSearchResponse, foldl_renderResult, showNotification, renderResult]

theorem removeBoundaryLayerIfAny_eq (s : State)
    (h : ∀ l ∈ s.mapBoundaryLayers, s.boundaryLayer = some l) :
    removeBoundaryLayerIfAny s = { s with mapBoundaryLayers := [] } := by
  unfold removeBoundaryLayerIfAny
  split
  · next l hl =>
    rw [removeLayer_handle l _ (fun x hx => by rw [← hl]; exact h x hx)]
  · next hl =>
    cases hm : s.mapBoundaryLayers with
    | nil => cases s; simp_all
    | cons x xs =>
      have := h x (by simp [hm])
      simp [hl] at this

theorem inv_removeBoundaryLayerIfAny (s : State) (h : Inv s) :
    Inv (removeBoundaryLayerIfAny s) := by
  rw [removeBoundaryLayerIfAny_eq s h.on_map_is_handle]
  obtain ⟨h1, h3, h4, h5, h6, hP⟩ := h
  exact ⟨h1, by simp, h4, h5, h6, hP⟩

theorem inv_fetch (r : Request) (s : State) (h : Inv s) (hr : r.wellFormed = true) :
    Inv (fetch r s) := by
  obtain ⟨h1, h3, h4, h5, h6, hP⟩ := h
  exact ⟨h1, h3, h4, h5, h6, wellFormed_append _ _ hP hr⟩

theorem inv_searchArea (s : State) (h : Inv s) : Inv (searchArea s) := by
  by_cases hn : jsTrim s.areaInput = ""
  · simp only [searchArea, hn, if_true]
    exact inv_frame h rfl rfl rfl rfl rfl rfl rfl
  · simp only [searchArea, hn, if_false]
    exact inv_fetch _ _
      (inv_removeBoundaryLayerIfAny _ (inv_frame h rfl rfl rfl rfl rfl rfl rfl)) rfl

theorem inv_identifyLocationByClick (lat lng : JSNumber) (s : State) (h : Inv s) :
    Inv (identifyLocationByClick lat lng s) :=
  inv_fetch _ _ (inv_removeBoundaryLayerIfAny _ (inv_frame h rfl rfl rfl rfl rfl rfl rfl)) rfl

theorem inv_displayAreaBoundary (data : AreaData) (term : Option String) (s : State)
    (h : Inv s) : Inv (displayAreaBoundary data term s) := by
  obtain ⟨h1, h3, h4, h5, h6, hP⟩ := h
  unfold displayAreaBoundary
  dsimp only
  rw [removeBoundaryLayerIfAny_eq]
  · constructor <;> cases term <;>
      simp [showNotification, selectionHeld] <;> assumption
  · exact h3

theorem inv_clearDrawings (s : State) (h : Inv s) : Inv (clearDrawings s) := by
  obtain ⟨h1, h3, h4, h5, h6, hP⟩ := h
  unfold clearDrawings
  cases hl : s.boundaryLayer with
  | none =>
    have hb : s.currentAreaBoundary = none := by
      cases hb : s.currentAreaBoundary with
      | none => rfl
      | some b => simp [hb, hl] at h1
    cases hu : s.useDrawnShape <;> constructor <;>
      simp_all [showNotification, selectionHeld]
  | some l =>
    have hrm : removeLayer l s.mapBoundaryLayers = [] :=
      removeLayer_handle l _ (fun x hx => by rw [← hl]; exact h3 x hx)
    cases hu : s.useDrawnShape <;> constructor <;>
      simp_all [showNotification, selectionHeld]

theorem inv_step (e : Event) (s : State) (h : Inv s) : Inv (step e s) := by
  cases e with
  | shapeCreated layer =>
    obtain ⟨h1, h3, h4, h5, h6, hP⟩ := h
    constructor <;> simp [step, onDrawCreated, showNotification, selectionHeld] <;> assumption
  | searchClick c v => 
    simp only [step]
    split
    · exact h
    · exact inv_searchBusinesses c v s h
  | searchResponse r => exact inv_onSearchResponse r s h
  | exportClick =>
    simp only [step]
    split
    · split
      · exact inv_fetch _ _ h rfl
      · exact h
    · exact h
  | exportResponse ok =>
    simp only [step, onExportResponse]
    split <;> exact inv_frame h rfl rfl rfl rfl rfl rfl rfl
  | areaInputEdited t => exact inv_frame h rfl rfl rfl rfl rfl rfl rfl
  | areaSearchClick => exact inv_searchArea s h
  | mapClick lat lng => exact inv_identifyLocationByClick lat lng s h
  | areaResponse t r =>
    cases r with
    | failure => exact inv_frame h rfl rfl rfl rfl rfl rfl rfl
    | error body => exact inv_frame h rfl rfl rfl rfl rfl rfl rfl
    | found data =>
      apply inv_displayAreaBoundary
      exact inv_frame h rfl rfl rfl rfl rfl rfl rfl
  | popupTimer =>
    simp only [step, onPopupTimer]
    split <;> exact inv_frame h rfl rfl rfl rfl rfl rfl rfl
  | searchHereClick =>
    simp only [step]
    split
    · split
      · obtain ⟨h1, h3, h4, h5, h6, hP⟩ := h
        constructor <;> simp [onSearchHereClick, showNotification, selectionHeld] <;> assumption
      · exact h
    · exact h
  | popupClosed => exact inv_frame h rfl rfl rfl rfl rfl rfl rfl
  | clearClick => exact inv_clearDrawings s h
  | notificationTimer => exact inv_frame h rfl rfl rfl rfl rfl rfl rfl

theorem inv_run (es : List Event) (s : State) (h : Inv s) : Inv (run es s) := by
  induction es generalizing s with
  | nil => exact h
  | cons e es ih => exact ih _ (inv_step e s h)
theorem inv_reachable (page : Page) (es : List Event) : Inv (run es (initialState page)) :=
  inv_run es _ (inv_initialState page)

theorem enabledOnlyIfHeld_initialState (page : Page) : EnabledOnlyIfHeld (initialState page) := by
  simp [EnabledOnlyIfHeld, initialState]

/-- The property `EnabledOnlyIfHeld` only reads four components of the state. -/
theorem enabledOnlyIfHeld_frame {s t : State} (h : EnabledOnlyIfHeld s)
    (e1 : t.currentAreaBoundary = s.currentAreaBoundary)
    (e4 : t.currentDrawing = s.currentDrawing)
    (e5 : t.useDrawnShape = s.useDrawnShape)
    (e6 : t.searchDisabled = s.searchDisabled) : EnabledOnlyIfHeld t := by
  simp only [EnabledOnlyIfHeld, selectionHeld, e1, e4, e5, e6] at h ⊢
  exact h

theorem clearDrawings_clears (s : State) (hI : Inv s) (hG : EnabledOnlyIfHeld s) :
    (clearDrawings s).searchDisabled = true ∧ (clearDrawings s).currentDrawing = none ∧
      (clearDrawings s).currentAreaBoundary = none ∧
      (clearDrawings s).mapBoundaryLayers = [] := by
  obtain ⟨h1, h3, h4, h5, h6, hP⟩ := hI
  unfold clearDrawings
  cases hl : s.boundaryLayer with
  | none =>
    have hb : s.currentAreaBoundary = none := by
      cases hb : s.currentAreaBoundary with
      | none => rfl
      | some b => simp [hb, hl] at h1
    have hm : s.mapBoundaryLayers = [] := by
      cases hm : s.mapBoundaryLayers with
      | nil => rfl
      | cons x xs =>
        have := h3 x (by simp [hm])
        simp [hl] at this
    cases hu : s.useDrawnShape
    · cases hd : s.searchDisabled
      · have := hG hd
        simp [selectionHeld, hu, hb] at this
      · simp [showNotification, hu, hb, hd, hm]
    · simp [showNotification, hu, hb, hm]
  | some l =>
    have hrm : removeLayer l s.mapBoundaryLayers = [] :=
      removeLayer_handle l _ (fun x hx => by rw [← hl]; exact h3 x hx)
    cases hu : s.useDrawnShape <;> simp [showNotification, hu, hrm]

theorem enabledOnlyIfHeld_step (e : Event) (s : State) (hI : Inv s) (hG : EnabledOnlyIfHeld s)
    (he : e.isSearchHereClick = false) : EnabledOnlyIfHeld (step e s) := by
  cases e with
  | shapeCreated layer => simp [EnabledOnlyIfHeld, step, onDrawCreated, showNotification, selectionHeld]
  | searchClick c v =>
    simp only [step]
    split
    · exact hG
    · unfold searchBusinesses
      dsimp only
      split <;> exact enabledOnlyIfHeld_frame hG rfl rfl rfl rfl
  | searchResponse r =>
    cases r with
    | failure => exact enabledOnlyIfHeld_frame hG rfl rfl rfl rfl
    | error body => exact enabledOnlyIfHeld_frame hG rfl rfl rfl rfl
    | results rs =>
      cases rs with
      | nil => exact enabledOnlyIfHeld_frame hG rfl rfl rfl rfl
      | cons r rs =>
        apply enabledOnlyIfHeld_frame hG <;>
          simp [step, onSearchResponse, foldl_renderResult, showNotification, renderResult]
  | exportClick =>
    simp only [step]
    split
    · split
      · exact enabledOnlyIfHeld_frame hG rfl rfl rfl rfl
      · exact hG
    · exact hG
  | exportResponse ok =>
    simp only [step, onExportResponse]
    split <;> exact enabledOnlyIfHeld_frame hG rfl rfl rfl rfl
  | areaInputEdited t => exact enabledOnlyIfHeld_frame hG rfl rfl rfl rfl
  | areaSearchClick =>
    by_cases hn : jsTrim s.areaInput = ""
    · simp only [step, searchArea, hn, if_true]
      exact enabledOnlyIfHeld_frame hG rfl rfl rfl rfl
    · simp only [step, searchArea, hn, if_false]
      rw [removeBoundaryLayerIfAny_eq]
      · exact enabledOnlyIfHeld_frame hG rfl rfl rfl rfl
      · exact hI.on_map_is_handle
  | mapClick lat lng =>
    simp only [step, identifyLocationByClick]
    rw [removeBoundaryLayerIfAny_eq]
    · exact enabledOnlyIfHeld_frame hG rfl rfl rfl rfl
    · exact hI.on_map_is_handle
  | areaResponse t r =>
    cases r with
    | failure => exact enabledOnlyIfHeld_frame hG rfl rfl rfl rfl
    | error body => exact enabledOnlyIfHeld_frame hG rfl rfl rfl rfl
    | found data =>
      simp only [EnabledOnlyIfHeld, step, onAreaResponse]
      intro _
      unfold displayAreaBoundary
      dsimp only
      rw [removeBoundaryLayerIfAny_eq]
      · cases t <;> simp [selectionHeld, showNotification]
      · exact hI.on_map_is_handle
  | popupTimer =>
    simp only [step, onPopupTimer]
    split <;> exact enabledOnlyIfHeld_frame hG rfl rfl rfl rfl
  | searchHereClick => simp [Event.isSearchHereClick] at he
  | popupClosed => exact enabledOnlyIfHeld_frame hG rfl rfl rfl rfl
  | clearClick =>
    have h := (clearDrawings_clears s hI hG).1
    simp only [EnabledOnlyIfHeld, step]
    intro hd
    rw [h] at hd
    cases hd
  | notificationTimer => exact enabledOnlyIfHeld_frame hG rfl rfl rfl rfl

theorem enabledOnlyIfHeld_run (es : List Event) (s : State) (hI : Inv s) (hG : EnabledOnlyIfHeld s)
    (hes : ∀ e ∈ es, e.isSearchHereClick = false) : EnabledOnlyIfHeld (run es s) := by
  induction es generalizing s with
  | nil => exact hG
  | cons e es ih =>
    have he : e.isSearchHereClick = false := hes e (by simp)
    exact ih _ (inv_step e s hI) (enabledOnlyIfHeld_step e s hI hG he)
      (fun x hx => hes x (by simp [hx]))

theorem foldl_push_eq_map (ring : List LatLng) (acc : List JSObject) :
    ring.foldl (fun coordinates latLng =>
        coordinates ++ [[("lat", latLng.lat), ("lng", latLng.lng)]]) acc =
      acc ++ ring.map (fun v => [("lat", v.lat), ("lng", v.lng)]) := by
  induction ring generalizing acc with
  | nil => simp
  | cons v vs ih => simp [List.foldl_cons, ih]

theorem searchBusinesses_markers (c v : String) (s : State) :
    (searchBusinesses c v s).markers = s.markers := by
  unfold searchBusinesses
  dsimp only
  split <;> rfl

theorem onSearchResponse_results_markers (rs : List SearchResult) (s : State) :
    (onSearchResponse (.results rs) s).markers =
      s.markers ++ rs.map (fun r =>
        { lat := r.lat, lon := r.lon, popupContent := popupContent r }) := by
  cases rs with
  | nil => simp [onSearchResponse]
  | cons r rs => simp [onSearchResponse, foldl_renderResult, showNotification, renderResult]

theorem searchBusinesses_without_selection (s : State) (category value : String)
    (hd : s.currentDrawing = none) (hb : s.currentAreaBoundary = none) :
    (searchBusinesses category value s).notification =
        some { message := "Please select an area first by searching or drawing on the map.",
               type := "error" } ∧
      (searchBusinesses category value s).spinnerVisible = false ∧
      (searchBusinesses category value s).requests = s.requests := by
  cases hu : s.useDrawnShape <;> simp [searchBusinesses, hd, hb, hu, showNotification]

theorem clearDrawings_page (s : State) :
    (clearDrawings s).drawnItems = [] ∧ (clearDrawings s).resultsList = [] ∧
      (clearDrawings s).exportVisible = false ∧ (clearDrawings s).markers = s.markers := by
  unfold clearDrawings
  cases hu : s.useDrawnShape <;> cases hl : s.boundaryLayer <;>
    simp [hu, hl, showNotification]

theorem searchBusinesses_resultsList (c v : String) (s : State) :
    (searchBusinesses c v s).resultsList = [] := by
  unfold searchBusinesses
  dsimp only
  split <;> rfl

/-- Without a click on the button of the area popup, the search button is enabled
exactly while a selection is held. -/
theorem search_enabled_iff_selection_held (page : Page) (es : List Event)
    (h : ∀ e ∈ es, e.isSearchHereClick = false) :
    (run es (initialState page)).searchDisabled = false ↔
      selectionHeld (run es (initialState page)) = true :=
  ⟨enabledOnlyIfHeld_run es _ (inv_initialState page) (enabledOnlyIfHeld_initialState page) h,
   (inv_reachable page es).held_enabled⟩

/-! ## The claims -/

/-- C1, evaluated on the script: a boundary is displayed and then a shape is created.
The handler of the draw event clears neither `currentAreaBoundary` nor the boundary
layer, so the state after the last event holds both payloads and the map shows both
overlays, where the claim asks for exactly one of each. -/
theorem C1_shape_after_boundary_keeps_both :
    (onDrawCreated triangle
        (displayAreaBoundary berlin (some "Berlin")
          (initialState Page.blank))).currentDrawing.isSome = true ∧
    (onDrawCreated triangle
        (displayAreaBoundary berlin (some "Berlin")
          (initialState Page.blank))).currentAreaBoundary.isSome = true ∧
    drawnOverlayDisplayed (onDrawCreated triangle
        (displayAreaBoundary berlin (some "Berlin") (initialState Page.blank))) = true ∧
    boundaryOverlayDisplayed (onDrawCreated triangle
        (displayAreaBoundary berlin (some "Berlin") (initialState Page.blank))) = true := by
  decide

/-- C2: in every state reached from the initial state by any sequence of events, every
`/search` request that `searchBusinesses` has sent or sends now has exactly one of the
properties `coordinates` and `boundary`, and has `coordinates` if and only if its
`useDrawnShape` is true. -/
theorem C2_search_request_has_one_payload (page : Page) (es : List Event)
    (category value : String) (body : SearchRequest)
    (h : Request.search body ∈
      (searchBusinesses category value (run es (initialState page))).requests) :
    (body.hasCoordinates != body.hasBoundary) = true ∧
      (body.hasCoordinates = true ↔ body.useDrawnShape = true) := by
  have hI := inv_searchBusinesses category value _ (inv_reachable page es)
  have hw := hI.requests_ok _ h
  simp only [Request.wellFormed, SearchRequest.wellFormed, Bool.and_eq_true,
    beq_iff_eq] at hw
  exact ⟨hw.1, by rw [hw.2]⟩

/-- Witness of C2: the request sent for a drawn triangle. -/
theorem C2_search_request_has_one_payload_witness :
    Request.search
        { category := "amenity", value := "cafe", useDrawnShape := true,
          coordinates := some (getCoordinatesFromDrawing triangle), boundary := none } ∈
      (searchBusinesses "amenity" "cafe"
        (run [.shapeCreated triangle] (initialState Page.blank))).requests ∧
    ((SearchRequest.hasCoordinates
        { category := "amenity", value := "cafe", useDrawnShape := true,
          coordinates := some (getCoordinatesFromDrawing triangle), boundary := none } !=
      SearchRequest.hasBoundary
        { category := "amenity", value := "cafe", useDrawnShape := true,
          coordinates := some (getCoordinatesFromDrawing triangle),
          boundary := none }) = true ∧
     (SearchRequest.hasCoordinates
        { category := "amenity", value := "cafe", useDrawnShape := true,
          coordinates := some (getCoordinatesFromDrawing triangle),
          boundary := none } = true ↔
      SearchRequest.useDrawnShape
        { category := "amenity", value := "cafe", useDrawnShape := true,
          coordinates := some (getCoordinatesFromDrawing triangle),
          boundary := none } = true)) :=
  ⟨by decide,
   C2_search_request_has_one_payload Page.blank [.shapeCreated triangle] "amenity" "cafe"
     _ (by decide)⟩

/-- C3: for every category and value, in a state that holds neither a drawing nor a
boundary `searchBusinesses` shows the error notification that asks to select an area,
hides the spinner and issues no request; and in every reachable state that holds a
drawing or a boundary it issues exactly one request, to `/search`. -/
theorem C3_search_needs_selection (s : State) (category value : String) :
    (s.currentDrawing = none → s.currentAreaBoundary = none →
      (searchBusinesses category value s).notification =
          some { message := "Please select an area first by searching or drawing on the map.",
                 type := "error" } ∧
        (searchBusinesses category value s).spinnerVisible = false ∧
        (searchBusinesses category value s).requests = s.requests) ∧
    (∀ (page : Page) (es : List Event), s = run es (initialState page) →
      (s.currentDrawing.isSome = true ∨ s.currentAreaBoundary.isSome = true) →
      ∃ body, (searchBusinesses category value s).requests =
        s.requests ++ [Request.search body]) := by
  constructor
  · exact searchBusinesses_without_selection s category value
  · intro page es hs hheld
    have hI : Inv s := hs ▸ inv_reachable page es
    cases hd : s.currentDrawing with
    | some layer =>
      have hu : s.useDrawnShape = true := hI.drawing_in_use (by simp [hd])
      exact ⟨_, by simp [searchBusinesses, hd, hu, fetch]; rfl⟩
    | none =>
      cases hb : s.currentAreaBoundary with
      | none => simp [hd, hb] at hheld
      | some b =>
        cases hu : s.useDrawnShape
        · exact ⟨_, by simp [searchBusinesses, hd, hu, hb, fetch]; rfl⟩
        · exact ⟨_, by simp [searchBusinesses, hd, hu, hb, fetch]; rfl⟩

/-- Witness of C3: at startup nothing is held, and after a shape is created a drawing
is held. -/
theorem C3_search_needs_selection_witness :
    ((searchBusinesses "amenity" "cafe" (initialState Page.blank)).notification =
          some { message := "Please select an area first by searching or drawing on the map.",
                 type := "error" } ∧
        (searchBusinesses "amenity" "cafe" (initialState Page.blank)).spinnerVisible = false ∧
        (searchBusinesses "amenity" "cafe" (initialState Page.blank)).requests =
          (initialState Page.blank).requests) ∧
    (∃ body,
      (searchBusinesses "amenity" "cafe"
          (run [.shapeCreated triangle] (initialState Page.blank))).requests =
        (run [.shapeCreated triangle] (initialState Page.blank)).requests ++
          [Request.search body]) :=
  ⟨(C3_search_needs_selection (initialState Page.blank) "amenity" "cafe").1 rfl rfl,
   (C3_search_needs_selection (run [.shapeCreated triangle] (initialState Page.blank))
      "amenity" "cafe").2 Page.blank [.shapeCreated triangle] rfl (Or.inl (by decide))⟩

/-- C4 as stated fails: a shape is drawn, a search renders one result and a second
search renders one result; two markers are then on the map, the number of results of
both searches, and not the one of the second search. -/
theorem C4_counterexample :
    (run [.shapeCreated triangle, .searchClick "amenity" "cafe",
          .searchResponse (.results [cafe]), .searchClick "shop" "bakery",
          .searchResponse (.results [bakery])] (initialState Page.blank)).markers.length =
      [cafe].length + [bakery].length ∧
    (run [.shapeCreated triangle, .searchClick "amenity" "cafe",
          .searchResponse (.results [cafe]), .searchClick "shop" "bakery",
          .searchResponse (.results [bakery])] (initialState Page.blank)).markers.length ≠
      [bakery].length := by
  decide

/-- C4, amended: markers are additive across searches.  When a search renders `R` and a
later search renders `R2`, the markers on the map afterwards are the ones that were
there before, followed by one marker per result of `R` and one per result of `R2`;
their number is the earlier number plus `|R| + |R2|`. -/
theorem C4_markers_are_additive (s : State) (category value category2 value2 : String)
    (R R2 : List SearchResult) :
    (onSearchResponse (.results R2) (searchBusinesses category2 value2
        (onSearchResponse (.results R) (searchBusinesses category value s)))).markers =
      s.markers ++
        R.map (fun r => { lat := r.lat, lon := r.lon, popupContent := popupContent r }) ++
        R2.map (fun r => { lat := r.lat, lon := r.lon, popupContent := popupContent r }) ∧
    (onSearchResponse (.results R2) (searchBusinesses category2 value2
        (onSearchResponse (.results R) (searchBusinesses category value s)))).markers.length =
      s.markers.length + R.length + R2.length := by
  have h : (onSearchResponse (.results R2) (searchBusinesses category2 value2
        (onSearchResponse (.results R) (searchBusinesses category value s)))).markers =
      s.markers ++
        R.map (fun r => { lat := r.lat, lon := r.lon, popupContent := popupContent r }) ++
        R2.map (fun r => { lat := r.lat, lon := r.lon, popupContent := popupContent r }) := by
    rw [onSearchResponse_results_markers, searchBusinesses_markers,
      onSearchResponse_results_markers, searchBusinesses_markers]
  refine ⟨h, ?_⟩
  rw [h]
  simp [Nat.add_assoc]

/-- C5 as stated fails: after a search has rendered a result, `clearDrawings` leaves
the marker of that result on the map. -/
theorem C5_counterexample :
    (run [.shapeCreated triangle, .searchClick "amenity" "cafe",
          .searchResponse (.results [cafe]), .clearClick]
        (initialState Page.blank)).markers.length = 1 := by
  decide

/-- C5, amended: in every state reached by a sequence of events without a click on the
button of the area popup, the state right after `clearDrawings` holds no drawing and
no boundary, so that a search aborts without a request; no drawn overlay and no
boundary overlay is on the map, the result list is empty, the search button is
disabled and the export button is hidden.  The result markers are left as they
were. -/
theorem C5_clear_resets_all_but_markers (page : Page) (es : List Event)
    (h : ∀ e ∈ es, e.isSearchHereClick = false) :
    (clearDrawings (run es (initialState page))).currentDrawing = none ∧
    (clearDrawings (run es (initialState page))).currentAreaBoundary = none ∧
    selectionHeld (clearDrawings (run es (initialState page))) = false ∧
    (∀ category value : String,
      (searchBusinesses category value
        (clearDrawings (run es (initialState page)))).requests =
      (clearDrawings (run es (initialState page))).requests) ∧
    drawnOverlayDisplayed (clearDrawings (run es (initialState page))) = false ∧
    boundaryOverlayDisplayed (clearDrawings (run es (initialState page))) = false ∧
    (clearDrawings (run es (initialState page))).resultsList = [] ∧
    (clearDrawings (run es (initialState page))).searchDisabled = true ∧
    (clearDrawings (run es (initialState page))).exportVisible = false ∧
    (clearDrawings (run es (initialState page))).markers =
      (run es (initialState page)).markers := by
  have hI := inv_reachable page es
  have hG := enabledOnlyIfHeld_run es _ (inv_initialState page) (enabledOnlyIfHeld_initialState page) h
  obtain ⟨h1, h2, h3, h4⟩ := clearDrawings_clears _ hI hG
  refine ⟨h2, h3, ?_, ?_, ?_, ?_, ?_, h1, ?_, ?_⟩
  · simp [selectionHeld, h2, h3]
  · intro category value
    exact (searchBusinesses_without_selection _ category value h2 h3).2.2
  · simp [drawnOverlayDisplayed, (clearDrawings_page _).1]
  · simp [boundaryOverlayDisplayed, h4]
  · exact (clearDrawings_page _).2.1
  · exact (clearDrawings_page _).2.2.1
  · exact (clearDrawings_page _).2.2.2

/-- Witness of C5: a session with a drawn shape and a rendered search. -/
theorem C5_clear_resets_all_but_markers_witness :
    (∀ e ∈ [Event.shapeCreated triangle, .searchClick "amenity" "cafe",
          .searchResponse (.results [cafe])], e.isSearchHereClick = false) ∧
    (clearDrawings (run [.shapeCreated triangle, .searchClick "amenity" "cafe",
          .searchResponse (.results [cafe])] (initialState Page.blank))).searchDisabled =
      true ∧
    (clearDrawings (run [.shapeCreated triangle, .searchClick "amenity" "cafe",
          .searchResponse (.results [cafe])] (initialState Page.blank))).markers =
      (run [.shapeCreated triangle, .searchClick "amenity" "cafe",
          .searchResponse (.results [cafe])] (initialState Page.blank)).markers :=
  ⟨by decide,
   (C5_clear_resets_all_but_markers Page.blank
      [.shapeCreated triangle, .searchClick "amenity" "cafe",
        .searchResponse (.results [cafe])] (by decide)).2.2.2.2.2.2.2.1,
   (C5_clear_resets_all_but_markers Page.blank
      [.shapeCreated triangle, .searchClick "amenity" "cafe",
        .searchResponse (.results [cafe])] (by decide)).2.2.2.2.2.2.2.2.2⟩

/-- C6 as stated fails: a search has rendered one result; a second search that ends in
a backend error leaves the result list empty, not as it was. -/
theorem C6_counterexample :
    (run [.shapeCreated triangle, .searchClick "amenity" "cafe",
          .searchResponse (.results [cafe])] (initialState Page.blank)).resultsList =
      [.item cafe] ∧
    (run [.shapeCreated triangle, .searchClick "amenity" "cafe",
          .searchResponse (.results [cafe]), .searchClick "amenity" "cafe",
          .searchResponse (.error timeout)] (initialState Page.blank)).resultsList = [] := by
  decide

/-- C6, amended: a search that ends in a backend-reported error shows the message of the
backend as an error notification, a search that ends in a network failure shows the
connection error notification, and both leave the markers on the map exactly as they
were before the search was triggered.  The result list is not kept: the trigger of the
search empties it and it is empty afterwards. -/
theorem C6_failed_search_keeps_markers_not_list (s : State) (category value : String)
    (body : ErrorBody) :
    ((onSearchResponse (.error body) (searchBusinesses category value s)).notification =
        some { message := body.error, type := "error" } ∧
      (onSearchResponse (.error body) (searchBusinesses category value s)).markers =
        s.markers ∧
      (onSearchResponse (.error body) (searchBusinesses category value s)).resultsList =
        []) ∧
    ((onSearchResponse .failure (searchBusinesses category value s)).notification =
        some { message := "Error connecting to server. Please try again.",
               type := "error" } ∧
      (onSearchResponse .failure (searchBusinesses category value s)).markers =
        s.markers ∧
      (onSearchResponse .failure (searchBusinesses category value s)).resultsList =
        []) := by
  have hm := searchBusinesses_markers category value s
  have hl := searchBusinesses_resultsList category value s
  refine ⟨⟨rfl, hm, hl⟩, ⟨rfl, hm, hl⟩⟩

/-- C7, evaluated on the script: a search returns one result and the next search returns
`{results: []}`.  The result list shows the message of the empty answer, but the
export button is still displayed and still bound to the result of the first search,
where the claim asks for a hidden export button. -/
theorem C7_empty_results_keep_export_button :
    (run [.shapeCreated triangle, .searchClick "amenity" "cafe",
          .searchResponse (.results [cafe]), .searchClick "shop" "bakery",
          .searchResponse (.results [])] (initialState Page.blank)).resultsList =
      [.noResults] ∧
    (run [.shapeCreated triangle, .searchClick "amenity" "cafe",
          .searchResponse (.results [cafe]), .searchClick "shop" "bakery",
          .searchResponse (.results [])] (initialState Page.blank)).exportVisible = true ∧
    (run [.shapeCreated triangle, .searchClick "amenity" "cafe",
          .searchResponse (.results [cafe]), .searchClick "shop" "bakery",
          .searchResponse (.results [])] (initialState Page.blank)).exportOnclick =
      some [cafe] := by
  decide

/-- C8 as stated fails: with the boundary of an area displayed, a click on the map and
a search by name both take the overlay off the map before their request is
answered. -/
theorem C8_counterexample :
    boundaryOverlayDisplayed
      (run [.areaResponse (some "Berlin") (.found berlin)] (initialState Page.blank)) =
        true ∧
    boundaryOverlayDisplayed
      (run [.areaResponse (some "Berlin") (.found berlin), .mapClick 52 13]
        (initialState Page.blank)) = false ∧
    boundaryOverlayDisplayed
      (run [.areaResponse (some "Berlin") (.found berlin), .areaSearchClick]
        (initialState Page.blank)) = false := by
  decide

/-- C8, amended: in every reachable state, starting a lookup by point, or by name with a
name that is not blank, takes the boundary overlay off the map at once, before the
request is answered, and keeps the held boundary and `window.boundaryLayer`; after a
lookup that ends in a backend error or in a network failure there is still no
boundary overlay on the map, and the boundary is still held. -/
theorem C8_lookup_removes_overlay_keeps_boundary (page : Page) (es : List Event)
    (lat lng : JSNumber) (term : Option String) (body : ErrorBody) :
    (overlayGoneBoundaryKept (run es (initialState page))
        (identifyLocationByClick lat lng (run es (initialState page))) ∧
      overlayGoneBoundaryKept (run es (initialState page))
        (onAreaResponse term (.error body)
          (identifyLocationByClick lat lng (run es (initialState page)))) ∧
      overlayGoneBoundaryKept (run es (initialState page))
        (onAreaResponse term .failure
          (identifyLocationByClick lat lng (run es (initialState page))))) ∧
    (jsTrim (run es (initialState page)).areaInput ≠ "" →
      overlayGoneBoundaryKept (run es (initialState page))
        (searchArea (run es (initialState page))) ∧
      overlayGoneBoundaryKept (run es (initialState page))
        (onAreaResponse term (.error body) (searchArea (run es (initialState page)))) ∧
      overlayGoneBoundaryKept (run es (initialState page))
        (onAreaResponse term .failure (searchArea (run es (initialState page))))) := by
  have hI := inv_reachable page es
  have key : ∀ t : State, t.mapBoundaryLayers = (run es (initialState page)).mapBoundaryLayers →
      t.boundaryLayer = (run es (initialState page)).boundaryLayer →
      t.currentAreaBoundary = (run es (initialState page)).currentAreaBoundary →
      overlayGoneBoundaryKept (run es (initialState page)) (removeBoundaryLayerIfAny t) := by
    intro t h1 h2 h3
    have h := removeBoundaryLayerIfAny_eq t (by rw [h1, h2]; exact hI.on_map_is_handle)
    simp [overlayGoneBoundaryKept, boundaryOverlayDisplayed, h, h2, h3]
  constructor
  · have h := key { run es (initialState page) with spinnerVisible := true } rfl rfl rfl
    exact ⟨h, h, h⟩
  · intro hn
    have h := key { run es (initialState page) with spinnerVisible := true } rfl rfl rfl
    simp only [searchArea, hn, if_false]
    exact ⟨h, h, h⟩

/-- Witness of C8: the lookup by name started after the area of the sample response is
displayed, where the input holds the typed name. -/
theorem C8_lookup_removes_overlay_keeps_boundary_witness :
    jsTrim (run [.areaResponse (some "Berlin") (.found berlin)]
        (initialState Page.blank)).areaInput ≠ "" ∧
    overlayGoneBoundaryKept
      (run [.areaResponse (some "Berlin") (.found berlin)] (initialState Page.blank))
      (searchArea
        (run [.areaResponse (some "Berlin") (.found berlin)] (initialState Page.blank))) :=
  ⟨by decide,
   ((C8_lookup_removes_overlay_keeps_boundary Page.blank
      [.areaResponse (some "Berlin") (.found berlin)] 52 13 none timeout).2
        (by decide)).1⟩

/-- C9 as stated fails: the records of a drawn polygon have no property `lon`; they are
not the records `{lat, lon}` of the wire contract as the specification words it. -/
theorem C9_counterexample :
    (getCoordinatesFromDrawing triangle).map (fun o => o.get "lon") =
      [none, none, none] ∧
    getCoordinatesFromDrawing triangle ≠
      [⟨0, 0⟩, ⟨0, 1⟩, ⟨1, 0⟩].map wireVertex := by
  decide

/-- C9, amended: for a polygon or a rectangle whose outer ring is `v_1..v_n`,
`getCoordinatesFromDrawing` returns exactly `n` records in the same order, the i-th
being `{lat: v_i.lat, lng: v_i.lng}`: the longitude is under the name `lng`.  For any
other kind of layer it returns the empty list. -/
theorem C9_coordinates_follow_outer_ring :
    (∀ outer holes, getCoordinatesFromDrawing (.polygon outer holes) =
        outer.map (fun v => [("lat", v.lat), ("lng", v.lng)]) ∧
      (getCoordinatesFromDrawing (.polygon outer holes)).length = outer.length) ∧
    (∀ outer, getCoordinatesFromDrawing (.rectangle outer) =
        outer.map (fun v => [("lat", v.lat), ("lng", v.lng)]) ∧
      (getCoordinatesFromDrawing (.rectangle outer)).length = outer.length) ∧
    (∀ points, getCoordinatesFromDrawing (.polyline points) = []) ∧
    (∀ center radius, getCoordinatesFromDrawing (.circle center radius) = []) ∧
    (∀ position, getCoordinatesFromDrawing (.marker position) = []) := by
  refine ⟨fun outer holes => ?_, fun outer => ?_, fun _ => rfl, fun _ _ => rfl,
    fun _ => rfl⟩
  · have h : getCoordinatesFromDrawing (.polygon outer holes) =
        outer.map (fun v => [("lat", v.lat), ("lng", v.lng)]) := by
      simp [getCoordinatesFromDrawing, foldl_push_eq_map]
    exact ⟨h, by rw [h, List.length_map]⟩
  · have h : getCoordinatesFromDrawing (.rectangle outer) =
        outer.map (fun v => [("lat", v.lat), ("lng", v.lng)]) := by
      simp [getCoordinatesFromDrawing, foldl_push_eq_map]
    exact ⟨h, by rw [h, List.length_map]⟩

/-- C10, evaluated on the script: an area is displayed, the listener of its popup is
attached, the map is cleared and the button of the popup, which is still open, is
clicked.  The search button is then enabled although neither a drawing nor a boundary
is held, and the notification says that an area is selected. -/
theorem C10_stale_popup_enables_search :
    (run [.areaResponse (some "Berlin") (.found berlin), .popupTimer, .clearClick,
          .searchHereClick] (initialState Page.blank)).searchDisabled = false ∧
    selectionHeld
      (run [.areaResponse (some "Berlin") (.found berlin), .popupTimer, .clearClick,
          .searchHereClick] (initialState Page.blank)) = false ∧
    (run [.areaResponse (some "Berlin") (.found berlin), .popupTimer, .clearClick,
          .searchHereClick] (initialState Page.blank)).notification =
      some { message := "Area selected. Ready to search for businesses.", type := "info" } ∧
    (run [.areaResponse (some "Berlin") (.found berlin), .popupTimer, .clearClick,
          .searchHereClick, .searchClick "amenity" "cafe"]
        (initialState Page.blank)).requests = [] := by
  decide

end BusinessLocationExtractor
